import Mathlib

/-!
# Verification of the aihack context-optimization subsystem

Shallow embedding of the context engine of the `aihack` repository:

* `src/aihack/core/context/context_engine.py` (`ContextClassifier`,
  `ContextEngine`),
* `src/aihack/core/context.py` (`BasicContextClassifier`,
  `BasicContextEngine`, `BasicSessionManager`),
* `src/aihack/core/context/context_measurement.py`
  (`ContextQualityMeasurer`),
* `src/aihack/core/context/live_context_manager.py` (`LiveContextManager`).

Python strings are modelled as Lean `String`s (lists of unicode code
points, which matches Python's code-point slicing and length), Python
floats as `ℚ` (all quantities involved are exact decimal/ratio values),
Python `datetime` values as integer/naturals passed in explicitly, and
Python exceptions as `Except`/`Option` results.  Dictionaries whose
insertion order is observable (the quality cache) are modelled as
association lists; dictionaries used only for keyed lookup (the live
conversation table) as functions to `Option`.
-/

set_option maxRecDepth 8000

namespace AIHack

/-! ## Python string primitives -/

/-- The ASCII whitespace characters stripped by Python `str.strip()` and
matched by the regex class `\s` (space, tab, newline, carriage return,
vertical tab, form feed).  The repository only ever feeds ASCII text into
these helpers, so the unicode extras of Python are not modelled. -/
def pyIsSpace (c : Char) : Bool :=
  c = ' ' || c = '\t' || c = '\n' || c = '\r' || c = '\x0b' || c = '\x0c'

/-- Truthiness of Python `line.strip()`: true iff the string contains a
non-whitespace character. -/
def pyStripTruthy (s : String) : Bool :=
  s.data.any (fun c => !pyIsSpace c)

/-- Python `str.strip()`: remove leading and trailing whitespace. -/
def pyStrip (s : String) : String :=
  ⟨((s.data.dropWhile pyIsSpace).reverse.dropWhile pyIsSpace).reverse⟩

/-- Python `str.lower()` (ASCII; the keyword tables are all ASCII). -/
def pyLower (s : String) : String :=
  ⟨s.data.map Char.toLower⟩

/-- Decide whether the first character list is a prefix of the second. -/
def charsPrefix : List Char → List Char → Bool
  | [], _ => true
  | _ :: _, [] => false
  | a :: as, b :: bs => a = b && charsPrefix as bs

/-- Decide whether the first character list occurs contiguously in the
second. -/
def charsInfix (needle : List Char) : List Char → Bool
  | [] => needle.isEmpty
  | c :: rest => charsPrefix needle (c :: rest) || charsInfix needle rest

/-- Python substring containment `needle in hay`. -/
def pyContains (hay needle : String) : Bool :=
  charsInfix needle.data hay.data

/-- Python slicing `s[:n]` (by code points, like Lean `List.take`). -/
def pySlice (s : String) (n : Nat) : String :=
  ⟨s.data.take n⟩

/-- Split a character list at every `'\n'`; helper for `pySplit`. -/
def pySplitNlAux : List Char → List (List Char)
  | [] => [[]]
  | c :: rest =>
    match pySplitNlAux rest with
    | [] => [[]]
    | g :: gs => if c = '\n' then [] :: g :: gs else (c :: g) :: gs

/-- Python `s.split("\n")`. -/
def pySplit (s : String) : List String :=
  (pySplitNlAux s.data).map (fun l => (⟨l⟩ : String))

/-- Python `"\n".join(parts)`. -/
def joinLines : List String → String
  | [] => ""
  | [s] => s
  | s :: rest => s ++ "\n" ++ joinLines rest

/-- Sum of the lengths of a list of strings. -/
def sumLen (l : List String) : Nat :=
  (l.map String.length).sum

/-- Python `a or b` for an optional string `a` (`None` and `""` are both
falsy in Python). -/
def pyOrS (a : Option String) (b : String) : String :=
  match a with
  | some s => if s = "" then b else s
  | none => b

/-! ## Data model (`context_engine.py` lines 11-41, `context.py` lines 14-42) -/

/-- Enum `ContextType`. -/
inductive ContextType where
  | STRATEGIC
  | IMPLEMENTATION
  | DEBUG
  | CHAT
deriving DecidableEq, BEq, Repr

/-- Enum `ModelType`. -/
inductive ModelType where
  | CLAUDE
  | GEMINI
  | LOCAL
deriving DecidableEq, BEq, Repr

/-- Lookup for the `ModelType(value)` enum constructor: `some` on the three valid enum
values, `none` where Python raises `ValueError`. -/
def ModelType.ofString (s : String) : Option ModelType :=
  if s = "claude" then some .CLAUDE
  else if s = "gemini" then some .GEMINI
  else if s = "local" then some .LOCAL
  else none

/-- Dataclass `ContextSegment` of `context_engine.py`. -/
structure ContextSegment where
  content : String
  segment_type : ContextType
  importance_score : ℚ
  line_start : Nat
  line_end : Nat
deriving DecidableEq, Repr

/-- Dataclass `ContextSegment` of `context.py` (timestamp instead of line
numbers; timestamps are `datetime.now()` values passed in as naturals). -/
structure BasicContextSegment where
  content : String
  segment_type : ContextType
  importance_score : ℚ
  timestamp : Nat
deriving DecidableEq, Repr

/-- Dataclass `OptimizedContext` of `context_engine.py`. -/
structure OptimizedContext where
  content : String
  original_length : Nat
  optimized_length : Nat
  compression_ratio : ℚ
  estimated_time_savings : ℚ
  quality_score : ℚ
deriving DecidableEq, Repr

/-- Dataclass `OptimizedContext` of `context.py` (no time-savings field). -/
structure BasicOptimizedContext where
  content : String
  original_length : Nat
  optimized_length : Nat
  compression_ratio : ℚ
  quality_score : ℚ
deriving DecidableEq, Repr

/-! ## Classifiers (`context_engine.py` lines 81-118, `context.py` lines 44-92) -/

/-- Embedding of `ContextClassifier.classify_segment` (`context_engine.py`). -/
def ContextClassifier.classify_segment (text : String) : ContextType :=
  let text_lower := pyLower text
  let strategic_keywords : List String :=
    ["architecture", "design", "approach", "strategy", "plan", "goal"]
  if strategic_keywords.any (fun k => pyContains text_lower k) then .STRATEGIC
  else
    let debug_keywords : List String :=
      ["error", "bug", "fix", "debug", "issue", "problem", "traceback"]
    if debug_keywords.any (fun k => pyContains text_lower k) then .DEBUG
    else
      let impl_keywords : List String :=
        ["function", "class", "method", "implement", "code", "variable"]
      if impl_keywords.any (fun k => pyContains text_lower k) then .IMPLEMENTATION
      else .CHAT

/-- Embedding of `BasicContextClassifier.classify_segment` (`context.py`); same shape
with three extra keywords ("overview", "exception", "import"/"def"). -/
def BasicContextClassifier.classify_segment (text : String) : ContextType :=
  let text_lower := pyLower text
  let strategic_keywords : List String :=
    ["architecture", "design", "approach", "strategy", "plan", "goal", "overview"]
  if strategic_keywords.any (fun k => pyContains text_lower k) then .STRATEGIC
  else
    let debug_keywords : List String :=
      ["error", "bug", "fix", "debug", "issue", "problem", "traceback", "exception"]
    if debug_keywords.any (fun k => pyContains text_lower k) then .DEBUG
    else
      let impl_keywords : List String :=
        ["function", "class", "method", "implement", "code", "variable", "import", "def"]
      if impl_keywords.any (fun k => pyContains text_lower k) then .IMPLEMENTATION
      else .CHAT

/-! ## Segmentation (`context_engine.py` lines 128-177, `context.py` lines 131-175)

Both `segment_conversation` methods run the same loop: skip blank lines,
classify each non-blank line, merge consecutive lines of equal category,
flush the current run when the category changes, and flush the final run.
`segmentCore` is that loop, parameterised by the classifier; the current
run is kept as the list of its lines (Python's `current_segment`), its
content being `"\n".join(current_segment)` on flush. -/

/-- Result of one flush of the segmentation loop: the lines of the run,
its category, and the `start_line`/`line_end` bookkeeping of
`context_engine.py` (ignored by the `context.py` variant). -/
structure RawSeg where
  lines : List String
  type : ContextType
  start : Nat
  stop : Nat
deriving DecidableEq, Repr

/-- The shared segmentation loop.  `total` is the number of lines of the
conversation (for the final `line_end = len(lines) - 1`); `i` the index of
the next line; `cur`/`ct`/`start` are Python's
`current_segment`/`current_type`/`start_line`. -/
def segmentCore (classify : String → ContextType) (total : Nat) :
    List String → Nat → List RawSeg → List String → Option ContextType → Nat → List RawSeg
  | [], _i, acc, cur, ct, start =>
    match ct with
    | some t => if cur.isEmpty then acc else acc ++ [⟨cur, t, start, total - 1⟩]
    | none => acc
  | line :: rest, i, acc, cur, ct, start =>
    if pyStripTruthy line then
      let line_type := classify line
      match ct with
      | none =>
        -- current_type was None: set it (and start_line := i), then append
        segmentCore classify total rest (i + 1) acc (cur ++ [line]) (some line_type) i
      | some t =>
        if line_type = t then
          segmentCore classify total rest (i + 1) acc (cur ++ [line]) (some t) start
        else
          let acc' := if cur.isEmpty then acc else acc ++ [⟨cur, t, start, i - 1⟩]
          segmentCore classify total rest (i + 1) acc' [line] (some line_type) i
    else
      segmentCore classify total rest (i + 1) acc cur ct start

/-- Embedding of `ContextEngine.segment_conversation`. -/
def ContextEngine.segment_conversation (conversation : String) : List ContextSegment :=
  let lines := pySplit conversation
  (segmentCore ContextClassifier.classify_segment lines.length lines 0 [] [] none 0).map
    (fun r => ⟨joinLines r.lines, r.type, 0, r.start, r.stop⟩)

/-- Embedding of `BasicContextEngine.segment_conversation`; `now` stands for
the `datetime.now()` timestamps. -/
def BasicContextEngine.segment_conversation (now : Nat) (conversation : String) :
    List BasicContextSegment :=
  let lines := pySplit conversation
  (segmentCore BasicContextClassifier.classify_segment lines.length lines 0 [] [] none 0).map
    (fun r => ⟨joinLines r.lines, r.type, 0, now⟩)

/-! ## Weighting (`context_engine.py` lines 51-78 and 179-188,
`context.py` lines 95-121 and 177-186; the two `BasicWeightingStrategy`
classes are character-for-character identical) -/

/-- Base importance weights (`base_weights` dict). -/
def baseWeights : ContextType → ℚ
  | .STRATEGIC => 1
  | .IMPLEMENTATION => 4/5
  | .DEBUG => 3/5
  | .CHAT => 3/10

/-- Embedding of `BasicWeightingStrategy.get_weights`: base weights with the
model-specific adjustments.  The dict always contains all four categories,
so the `weights.get(..., 0.5)` default of `apply_weights` is never used. -/
def BasicWeightingStrategy.get_weights (target_model : ModelType) (t : ContextType) : ℚ :=
  match target_model, t with
  | .LOCAL, .IMPLEMENTATION => 9/10
  | .LOCAL, .DEBUG => 7/10
  | .CLAUDE, .STRATEGIC => 1
  | .CLAUDE, .CHAT => 2/5
  | .GEMINI, .IMPLEMENTATION => 9/10
  | .GEMINI, .DEBUG => 4/5
  | _, ty => baseWeights ty

/-- Embedding of `ContextEngine.apply_weights` (the engine is constructed
with the default `BasicWeightingStrategy`). -/
def ContextEngine.apply_weights (segments : List ContextSegment) (target_model : ModelType) :
    List ContextSegment :=
  segments.map (fun s =>
    { s with importance_score := BasicWeightingStrategy.get_weights target_model s.segment_type })

/-- Embedding of `BasicContextEngine.apply_weights`. -/
def BasicContextEngine.apply_weights (segments : List BasicContextSegment)
    (target_model : ModelType) : List BasicContextSegment :=
  segments.map (fun s =>
    { s with importance_score := BasicWeightingStrategy.get_weights target_model s.segment_type })

/-! ## Selection (`context_engine.py` lines 190-216, `context.py` lines
188-214; the two `optimize_context` bodies are identical) -/

/-- Stable insertion of an element into a list sorted by descending score.
Used by `sortByScoreDesc` with elements inserted from the right, so the
inserted element (which precedes the list elements in the input) must land
in front of the first entry of smaller *or equal* score. -/
def insertByScoreDesc (score : α → ℚ) (s : α) : List α → List α
  | [] => [s]
  | t :: ts => if score s < score t then t :: insertByScoreDesc score s ts else s :: t :: ts

/-- Model of Python's stable `sorted(segments, key=lambda s:
s.importance_score, reverse=True)`: descending by score, ties keeping the
original order. -/
def sortByScoreDesc (score : α → ℚ) : List α → List α
  | [] => []
  | x :: xs => insertByScoreDesc score x (sortByScoreDesc score xs)

/-- The greedy selection loop of `optimize_context`: append whole segments
while they fit, then possibly one truncated segment (only when more than
100 characters of budget remain), then stop. -/
def selectLoop (content : α → String) (max_length : Int) :
    List α → List String → Nat → List String
  | [], acc, _cur => acc
  | seg :: rest, acc, cur =>
    let segment_length := (content seg).length
    if (cur : Int) + segment_length ≤ max_length then
      selectLoop content max_length rest (acc ++ [content seg]) (cur + segment_length)
    else
      let remaining := max_length - (cur : Int)
      if 100 < remaining then
        acc ++ [pySlice (content seg) (remaining - 3).toNat ++ ("...")]
      else
        acc

/-- Embedding of `ContextEngine.optimize_context`. -/
def ContextEngine.optimize_context (segments : List ContextSegment)
    (max_length : Int := 4000) : String :=
  joinLines (selectLoop ContextSegment.content max_length
    (sortByScoreDesc ContextSegment.importance_score segments) [] 0)

/-- Embedding of `BasicContextEngine.optimize_context`. -/
def BasicContextEngine.optimize_context (segments : List BasicContextSegment)
    (max_length : Int := 4000) : String :=
  joinLines (selectLoop BasicContextSegment.content max_length
    (sortByScoreDesc BasicContextSegment.importance_score segments) [] 0)

/-! ## Handoff (`context_engine.py` lines 218-270, `context.py` lines
216-262) -/

/-- Body of `ContextEngine.optimize_handoff` after the target model has been
resolved to an enum value. -/
def ContextEngine.handoff_core (conversation : String) (target_model_enum : ModelType)
    (max_length : Int) : OptimizedContext :=
  let segments := ContextEngine.segment_conversation conversation
  let weighted_segments := ContextEngine.apply_weights segments target_model_enum
  let optimized_content := ContextEngine.optimize_context weighted_segments max_length
  let original_length := conversation.length
  let optimized_length := optimized_content.length
  let compression_ratio : ℚ :=
    if 0 < original_length then (optimized_length : ℚ) / (original_length : ℚ) else 1
  let estimated_time_savings : ℚ :=
    max 0 (((original_length : ℚ) - (optimized_length : ℚ)) / 1000 * (1/2))
  let strategic_preserved := (weighted_segments.filter (fun s =>
    (s.segment_type == ContextType.STRATEGIC || s.segment_type == ContextType.IMPLEMENTATION)
      && pyContains optimized_content s.content)).length
  let total_important := (weighted_segments.filter (fun s =>
    s.segment_type == ContextType.STRATEGIC || s.segment_type == ContextType.IMPLEMENTATION)).length
  let quality_score : ℚ :=
    if 0 < total_important then (strategic_preserved : ℚ) / (total_important : ℚ) else 1
  ⟨optimized_content, original_length, optimized_length, compression_ratio,
    estimated_time_savings, quality_score⟩

/-- Embedding of `ContextEngine.optimize_handoff`.  The first statement,
`ModelType(target_model.lower())`, raises a `ValueError` on an unknown
backend name: modelled as `Except.error`.  The `source_model` argument is
unused by the Python body. -/
def ContextEngine.optimize_handoff (conversation : String) (_source_model : String)
    (target_model : String) (max_length : Int := 4000) : Except String OptimizedContext :=
  match ModelType.ofString (pyLower target_model) with
  | none => .error ("ValueError: not a valid ModelType")
  | some target_model_enum => .ok (ContextEngine.handoff_core conversation target_model_enum max_length)

/-- Body of `BasicContextEngine.optimize_handoff` after the try/except on the
target model. -/
def BasicContextEngine.handoff_core (now : Nat) (conversation : String)
    (target_model_enum : ModelType) (max_length : Int) : BasicOptimizedContext :=
  let segments := BasicContextEngine.segment_conversation now conversation
  let weighted_segments := BasicContextEngine.apply_weights segments target_model_enum
  let optimized_content := BasicContextEngine.optimize_context weighted_segments max_length
  let original_length := conversation.length
  let optimized_length := optimized_content.length
  let compression_ratio : ℚ :=
    if 0 < original_length then (optimized_length : ℚ) / (original_length : ℚ) else 1
  let important_segments := weighted_segments.filter (fun s =>
    s.segment_type == ContextType.STRATEGIC || s.segment_type == ContextType.IMPLEMENTATION)
  let preserved_important := (important_segments.filter (fun s =>
    pyContains optimized_content s.content)).length
  let quality_score : ℚ :=
    if important_segments.isEmpty then 1
    else (preserved_important : ℚ) / (important_segments.length : ℚ)
  ⟨optimized_content, original_length, optimized_length, compression_ratio, quality_score⟩

/-- Embedding of `BasicContextEngine.optimize_handoff`: the `ValueError` of
an unknown target backend is caught and `ModelType.LOCAL` used as the
default fallback. -/
def BasicContextEngine.optimize_handoff (now : Nat) (conversation : String)
    (_source_model : String) (target_model : String) (max_length : Int := 4000) :
    BasicOptimizedContext :=
  BasicContextEngine.handoff_core now conversation
    ((ModelType.ofString (pyLower target_model)).getD .LOCAL) max_length

/-! ## Quality measurement (`context_measurement.py`)

The regexes of the Python module are embedded as direct character
scanners: `\w+` as maximal runs of word characters, `"([^"]+)"` and its
backtick twin as a delimiter scanner with the leftmost-non-overlapping
semantics of `re.findall`, and the relationship patterns
`(\w+)\s+is\s+(\w+)` (etc.) as a scanner that mirrors the greedy
backtracking-free behaviour those patterns have. -/

/-- Python regex `\w` on ASCII input: letters, digits, underscore. -/
def isWordChar (c : Char) : Bool :=
  c.isAlpha || c.isDigit || c = '_'

/-- Maximal runs of word characters, i.e. `re.findall(r"\w+", s)`.  `cur`
is the run in progress, kept reversed. -/
def wordRunsAux (cur : List Char) : List Char → List (List Char)
  | [] => if cur.isEmpty then [] else [cur.reverse]
  | c :: rest =>
    if isWordChar c then wordRunsAux (c :: cur) rest
    else if cur.isEmpty then wordRunsAux [] rest
    else cur.reverse :: wordRunsAux [] rest

/-- The set of `\w+` words of a string (Python `set(re.findall(r"\w+", s))`). -/
def wordSet (s : String) : Finset String :=
  ((wordRunsAux [] s.data).map (fun l => (⟨l⟩ : String))).toFinset

/-- Python `max(0.0, min(1.0, x))`. -/
def clamp01 (x : ℚ) : ℚ :=
  max 0 (min 1 x)

/-- The `QualityMetrics` dataclass. -/
structure QualityMetrics where
  coherence_score : ℚ
  completeness_score : ℚ
  relevance_score : ℚ
  compression_efficiency : ℚ
  semantic_preservation : ℚ
  execution_time_ms : ℚ
  overall_score : ℚ
deriving DecidableEq, Repr

/-- Embedding of `ContextQualityMeasurer._measure_coherence`. -/
def measureCoherence (original optimized : String) : ℚ :=
  let optimized_lines := ((pySplit optimized).map pyStrip).filter (fun l => l ≠ "")
  if optimized_lines.length < 2 then 1
  else
    let topic_transitions := ((optimized_lines.zip optimized_lines.tail).filter (fun p =>
      let prev_words := wordSet (pyLower p.1)
      let curr_words := wordSet (pyLower p.2)
      prev_words.card != 0 && curr_words.card != 0 &&
        decide ((((prev_words ∩ curr_words).card : ℚ) / ((prev_words ∪ curr_words).card : ℚ))
          < 1/10))).length
    let coherence_score : ℚ :=
      if (optimized_lines.length : ℚ) * (3/10) < (topic_transitions : ℚ) then 1 * (7/10) else 1
    let context_indicators : List String :=
      ["because", "therefore", "however", "also", "additionally", "furthermore"]
    let original_indicators := (context_indicators.filter (fun k =>
      pyContains (pyLower original) k)).length
    let optimized_indicators := (context_indicators.filter (fun k =>
      pyContains (pyLower optimized) k)).length
    let coherence_score :=
      if 0 < original_indicators then
        coherence_score * min 1 ((optimized_indicators : ℚ) / (original_indicators : ℚ) + 1/2)
      else coherence_score
    clamp01 coherence_score

/-- Embedding of `ContextQualityMeasurer._measure_completeness`. -/
def measureCompleteness (original optimized : String) (segments : List ContextSegment) : ℚ :=
  if segments.isEmpty then
    -- fallback: simple length-based completeness, unclamped
    if original ≠ "" then (optimized.length : ℚ) / (original.length : ℚ) else 1
  else
    let total_importance := (segments.map ContextSegment.importance_score).sum
    let preserved_importance := (segments.map (fun segment =>
      let segment_words := wordSet (pyLower segment.content)
      let optimized_words := wordSet (pyLower optimized)
      if segment_words.card ≠ 0 then
        segment.importance_score
          * (((segment_words ∩ optimized_words).card : ℚ) / (segment_words.card : ℚ))
      else 0)).sum
    let completeness := if 0 < total_importance then preserved_importance / total_importance else 1
    clamp01 completeness

/-- The `model_preferences` table of `_measure_relevance`: preferred and
disliked keywords per known model name. -/
def modelPreferences (target_model : String) : Option (List String × List String) :=
  if target_model = "claude" then
    some (["strategy", "architecture", "analysis", "reasoning"],
          ["verbose", "repetitive", "trivial"])
  else if target_model = "gemini" then
    some (["implementation", "code", "specific", "actionable"],
          ["abstract", "philosophical", "vague"])
  else if target_model = "local" then
    some (["structured", "clear", "direct", "specific"],
          ["ambiguous", "complex", "abstract"])
  else none

/-- Python `re.search(r"\d+\.", s)`: some digit immediately followed by a
dot. -/
def hasNumberedItem (s : String) : Bool :=
  (s.data.zip s.data.tail).any (fun p => p.1.isDigit && p.2 = '.')

/-- Python `re.search(r"[-*]\s", s)`: a dash or star immediately followed
by a whitespace character. -/
def hasBulletItem (s : String) : Bool :=
  (s.data.zip s.data.tail).any (fun p => (p.1 = '-' || p.1 = '*') && pyIsSpace p.2)

/-- Embedding of `ContextQualityMeasurer._measure_relevance`. -/
def measureRelevance (optimized target_model : String) : ℚ :=
  match modelPreferences target_model with
  | none => 4/5  -- neutral score for unknown models
  | some (prefers, dislikes) =>
    let optimized_lower := pyLower optimized
    let relevance_score : ℚ := 7/10
    let relevance_score := relevance_score
      + ((prefers.filter (fun k => pyContains optimized_lower k)).length : ℚ) * (1/20)
    let relevance_score := relevance_score
      - ((dislikes.filter (fun k => pyContains optimized_lower k)).length : ℚ) * (1/20)
    let relevance_score :=
      if target_model = "local" then
        if hasNumberedItem optimized || hasBulletItem optimized then relevance_score + 1/10
        else relevance_score
      else relevance_score
    clamp01 relevance_score

/-- Embedding of `ContextQualityMeasurer._measure_compression_efficiency`. -/
def measureCompressionEfficiency (original optimized : String)
    (segments : List ContextSegment) : ℚ :=
  let original_len := original.length
  let optimized_len := optimized.length
  if original_len = 0 then 1
  else
    let compression_ratio : ℚ := (optimized_len : ℚ) / (original_len : ℚ)
    let important_segments := segments.filter (fun seg => decide ((7/10 : ℚ) < seg.importance_score))
    let important_content := joinLines (important_segments.map ContextSegment.content)
    if important_content = "" then compression_ratio  -- no important content: unclamped
    else
      let important_preservation :=
        ((important_segments.filter (fun seg => pyContains optimized seg.content)).length : ℚ)
          / (important_segments.length : ℚ)
      let efficiency := important_preservation / (compression_ratio + 1/10)
      clamp01 efficiency

/-- The `common_words` stop-word set of `_extract_key_concepts`. -/
def commonWords : List String :=
  ["the", "a", "an", "and", "or", "but", "in", "on", "at", "to", "for", "of",
   "with", "by", "is", "are", "was", "were", "be", "been", "have", "has", "had",
   "do", "does", "did", "will", "would", "could", "should", "may", "might",
   "can", "this", "that", "these", "those"]

/-- Leftmost non-overlapping matches of `d([^d]+)d` for a delimiter
character `d` (the quoted-span and backticked-span extraction of
`_extract_key_concepts`).  `inside` records whether an opening delimiter
has been seen; `cur` holds the span in progress, reversed.  An immediately
repeated delimiter cannot close a span (the group needs at least one
character), so it is re-read as a fresh opening delimiter, exactly as the
regex engine restarts the search there. -/
def extractDelimited (d : Char) (inside : Bool) (cur : List Char) : List Char → List String
  | [] => []
  | c :: rest =>
    if inside then
      if c = d then
        if cur.isEmpty then extractDelimited d true [] rest
        else (⟨cur.reverse⟩ : String) :: extractDelimited d false [] rest
      else extractDelimited d true (c :: cur) rest
    else
      if c = d then extractDelimited d true [] rest
      else extractDelimited d false [] rest

/-- Embedding of `ContextQualityMeasurer._extract_key_concepts`: words of at
least three ASCII letters (regex `\b[a-zA-Z]{3,}\b` over the lowered text,
i.e. maximal `\w+` runs that are all-alphabetic of length ≥ 3) minus the
stop words, plus quoted and backticked spans of the raw text. -/
def extractKeyConcepts (text : String) : Finset String :=
  let words := ((wordRunsAux [] (pyLower text).data).filter (fun r =>
    decide (3 ≤ r.length) && r.all Char.isAlpha)).map (fun r => (⟨r⟩ : String))
  let concepts := (words.filter (fun w => !(commonWords.contains w))).toFinset
  let quotes := extractDelimited '"' false [] text.data
  let code_patterns := extractDelimited (Char.ofNat 96) false [] text.data
  concepts ∪ quotes.toFinset ∪ code_patterns.toFinset

/-- Attempt to match `(\w+)\s+kw\s+(\w+)` at the start of `cs`.  The greedy
runs need no backtracking: shrinking a maximal `\w+`/`\s+` run leaves the
next character in the same class, so a failed step can never be repaired.
Returns the two captured groups and the remainder after the match. -/
def matchRelAt (kw : List Char) (cs : List Char) : Option (String × String × List Char) :=
  let w1 := cs.takeWhile isWordChar
  if w1.isEmpty then none
  else
    let r1 := cs.dropWhile isWordChar
    let s1 := r1.takeWhile pyIsSpace
    if s1.isEmpty then none
    else
      let r2 := r1.dropWhile pyIsSpace
      if charsPrefix kw r2 then
        let r3 := r2.drop kw.length
        let s2 := r3.takeWhile pyIsSpace
        if s2.isEmpty then none
        else
          let r4 := r3.dropWhile pyIsSpace
          let w2 := r4.takeWhile isWordChar
          if w2.isEmpty then none
          else some (⟨w1⟩, ⟨w2⟩, r4.dropWhile isWordChar)
      else none

/-- Leftmost non-overlapping matches of `(\w+)\s+kw\s+(\w+)`, i.e.
`re.findall` for the relationship patterns: try each position, resume
after a match.  The fuel argument (initially the length of the text) only
bounds the iteration count so that the recursion is structural; every step
consumes at least one character, so it never runs out. -/
def findallRel (kw : List Char) : Nat → List Char → List (String × String)
  | 0, _ => []
  | _ + 1, [] => []
  | fuel + 1, c :: rest =>
    match matchRelAt kw (c :: rest) with
    | some (a, b, after) => (a, b) :: findallRel kw fuel after
    | none => findallRel kw fuel rest

/-- The six relationship keywords of `_extract_relationships`. -/
def relKeywords : List String :=
  ["is", "has", "uses", "calls", "extends", "implements"]

/-- Embedding of `ContextQualityMeasurer._extract_relationships`: the set of
`"a-b"` strings for every match of the six patterns over the lowered
text. -/
def extractRelationships (text : String) : Finset String :=
  let tl := (pyLower text).data
  ((relKeywords.map (fun kw =>
    (findallRel kw.data tl.length tl).map (fun p => p.1 ++ ("-") ++ p.2))).flatten).toFinset

/-- Embedding of `ContextQualityMeasurer._measure_semantic_preservation`. -/
def measureSemanticPreservation (original optimized : String) : ℚ :=
  let original_concepts := extractKeyConcepts original
  let optimized_concepts := extractKeyConcepts optimized
  if original_concepts.card = 0 then 1
  else
    let concept_preservation :=
      (((original_concepts ∩ optimized_concepts).card : ℚ) / (original_concepts.card : ℚ))
    let original_relationships := extractRelationships original
    let optimized_relationships := extractRelationships optimized
    let relationship_preservation :=
      if original_relationships.card ≠ 0 then
        ((original_relationships ∩ optimized_relationships).card : ℚ)
          / (original_relationships.card : ℚ)
      else 1
    let semantic_score := (7/10) * concept_preservation + (3/10) * relationship_preservation
    clamp01 semantic_score

/-- The cache-miss computation of
`ContextQualityMeasurer.measure_optimization_quality`: the five sub-scores
and their weighted combination (weights 0.2, 0.3, 0.2, 0.15, 0.15). -/
def computeQualityMetrics (original optimized : String) (segments : List ContextSegment)
    (target_model : String) (execution_time_ms : ℚ) : QualityMetrics :=
  let coherence := measureCoherence original optimized
  let completeness := measureCompleteness original optimized segments
  let relevance := measureRelevance optimized target_model
  let compression_eff := measureCompressionEfficiency original optimized segments
  let semantic_preservation := measureSemanticPreservation original optimized
  let overall := coherence * (1/5) + completeness * (3/10) + relevance * (1/5)
    + compression_eff * (3/20) + semantic_preservation * (3/20)
  ⟨coherence, completeness, relevance, compression_eff, semantic_preservation,
    execution_time_ms, overall⟩

/-- Embedding of `ContextQualityMeasurer._generate_cache_key`, parameterised
by `md5hex`, the hex digest function of Python's `hashlib.md5` (library
code outside the repository, left abstract: the claims only use which keys
are distinct). -/
def generateCacheKey (md5hex : String → String) (original optimized target_model : String) :
    String :=
  pySlice (md5hex (pySlice original 100 ++ pySlice optimized 100 ++ target_model)) 16

/-- State of a `ContextQualityMeasurer`: the `quality_cache` dict, an
insertion-ordered association list (Python dicts preserve insertion
order; `next(iter(d))` is the first-inserted remaining key). -/
structure MeasurerState where
  quality_cache : List (String × QualityMetrics)
deriving DecidableEq, Repr

/-- Embedding of `ContextQualityMeasurer.measure_optimization_quality`.
On a cache hit the cached metrics object has its `execution_time_ms`
mutated in place (so the copy in the cache changes too, in place); on a
miss the result is computed, appended, and the first-inserted entry is
evicted when the cache exceeds 100 entries. -/
def measure_optimization_quality (md5hex : String → String) (st : MeasurerState)
    (original optimized : String) (segments : List ContextSegment) (target_model : String)
    (execution_time_ms : ℚ) : QualityMetrics × MeasurerState :=
  let cache_key := generateCacheKey md5hex original optimized target_model
  match st.quality_cache.find? (fun p => p.1 == cache_key) with
  | some p =>
    let cached := { p.2 with execution_time_ms := execution_time_ms }
    (cached, ⟨st.quality_cache.map (fun q => if q.1 == cache_key then (q.1, cached) else q)⟩)
  | none =>
    let metrics := computeQualityMetrics original optimized segments target_model
      execution_time_ms
    let cache := st.quality_cache ++ [(cache_key, metrics)]
    let cache := if 100 < cache.length then cache.drop 1 else cache
    (metrics, ⟨cache⟩)

/-! ## Live context manager (`live_context_manager.py`)

Python `datetime.now()` values are passed in as a `now : Nat` argument.
The `conversations` dict is modelled as a function to `Option` (it is
only ever used for keyed lookup/insert, never iterated).  A Python
exception raised mid-method leaves the mutations already performed in
place, so the mutating operations return the final state *and* an
optional error. -/

/-- The `LiveMessage` dataclass. -/
structure LiveMessage where
  content : String
  model : String
  timestamp : Nat
  role : String
  context_score : ℚ
deriving DecidableEq, Repr

/-- The `ConversationState` dataclass. -/
structure ConversationState where
  messages : List LiveMessage
  current_model : Option String
  context_buffer : String
  total_tokens_estimate : Nat
  last_optimization : Option Nat
deriving DecidableEq, Repr

/-- State of a `LiveContextManager` (constructed with the default
`ContextEngine`, `max_context_length=4000`, `optimization_threshold=6000`). -/
structure LiveContextManager where
  max_context_length : Int
  optimization_threshold : Int
  conversations : String → Option ConversationState

/-- Update of the `conversations` dict at one key. -/
def dictSet (d : String → Option ConversationState) (k : String) (v : ConversationState) :
    String → Option ConversationState :=
  fun q => if q = k then some v else d q

/-- Embedding of `LiveContextManager.start_conversation`. -/
def LiveContextManager.start_conversation (st : LiveContextManager)
    (session_id initial_model : String) : LiveContextManager :=
  { st with conversations := (dictSet st.conversations session_id
      ⟨[], some initial_model, "", 0, none⟩) }

/-- Decimal rendering of a rational with a fixed number of fractional
digits, rounding half away from zero.  Modelled from the spec: it stands
in for Python's `f"{x:.2f}"`/`f"{x:.1f}"` float formatting (interpreter
built-in, not repository code); no claim depends on the rendered text. -/
def fmtFixed (digits : Nat) (q : ℚ) : String :=
  let p : Int := (10 : Int) ^ digits
  let n : Int := ⌊q * (p : ℚ) + 1/2⌋
  let sign := if n < 0 then "-" else ""
  let a := n.natAbs
  let frac := toString (a % p.toNat)
  let pad := String.mk (List.replicate (digits - frac.length) '0')
  sign ++ toString (a / p.toNat) ++ (".") ++ pad ++ frac

/-- The synthetic system message emitted by `switch_model`. -/
def switchSystemMessage (new_model : String) (optimized : OptimizedContext) : String :=
  ("Context optimized for ") ++ new_model ++ (". Compression: ")
    ++ fmtFixed 2 optimized.compression_ratio
    ++ (", Estimated time savings: ") ++ fmtFixed 1 optimized.estimated_time_savings ++ ("s")

/-- Embedding of `LiveContextManager._auto_optimize_context`.  The optimize
step calls `ContextEngine.optimize_handoff` with the current model as both
source and target; a `ValueError` escaping from it (unknown current model
name) leaves the state untouched and is reported as `some error`. -/
def LiveContextManager.auto_optimize_context (st : LiveContextManager) (now : Nat)
    (session_id : String) : LiveContextManager × Option String :=
  match st.conversations session_id with
  | none => (st, some ("KeyError"))  -- self.conversations[session_id] would raise
  | some state =>
    match state.current_model with
    | none => (st, none)
    | some current =>
      match ContextEngine.optimize_handoff state.context_buffer current current
          st.max_context_length with
      | .error e => (st, some e)
      | .ok optimized =>
        let state' := { state with
          context_buffer := optimized.content,
          total_tokens_estimate := optimized.optimized_length / 4,
          last_optimization := some now }
        ({ st with conversations := dictSet st.conversations session_id state' }, none)

/-- Embedding of `LiveContextManager.add_message`: auto-start the session if
unknown (Python `model or "claude"`: `None` and `""` both fall back),
append the message and buffer text, bump the token estimate, and
auto-optimize when the estimate exceeds the optimization threshold. -/
def LiveContextManager.add_message (st : LiveContextManager) (now : Nat)
    (session_id content role : String) (model : Option String) :
    LiveContextManager × Option String :=
  let st1 := if (st.conversations session_id).isNone then
    st.start_conversation session_id (pyOrS model ("claude")) else st
  match st1.conversations session_id with
  | none => (st1, none)  -- unreachable: the session was just started
  | some state =>
    let message : LiveMessage :=
      ⟨content, pyOrS model (pyOrS state.current_model ("claude")), now, role, 0⟩
    let state' := { state with
      messages := state.messages ++ [message],
      context_buffer := state.context_buffer ++ ("\n") ++ role ++ (": ") ++ content,
      total_tokens_estimate := state.total_tokens_estimate + content.length / 4 }
    let st2 := { st1 with conversations := dictSet st1.conversations session_id state' }
    if st2.optimization_threshold < (state'.total_tokens_estimate : Int) then
      st2.auto_optimize_context now session_id
    else
      (st2, none)

/-- Embedding of `LiveContextManager.switch_model`: an unknown session id
raises `ValueError` (modelled as `Except.error`) without touching the
state; otherwise the buffer is re-optimized for the new model, the state
updated, a synthetic system message appended, and the optimized content
returned. -/
def LiveContextManager.switch_model (st : LiveContextManager) (now : Nat)
    (session_id new_model : String) : LiveContextManager × Except String String :=
  match st.conversations session_id with
  | none => (st, .error (("No conversation found for session ") ++ session_id))
  | some state =>
    let old_model := state.current_model
    match ContextEngine.optimize_handoff state.context_buffer (pyOrS old_model ("claude"))
        new_model st.max_context_length with
    | .error e => (st, .error e)
    | .ok optimized =>
      let state' := { state with
        current_model := some new_model,
        context_buffer := optimized.content,
        total_tokens_estimate := optimized.optimized_length / 4,
        last_optimization := some now }
      let st1 := { st with conversations := dictSet st.conversations session_id state' }
      let r := st1.add_message now session_id (switchSystemMessage new_model optimized)
        ("system") (some new_model)
      match r.2 with
      | some e => (r.1, .error e)
      | none => (r.1, .ok optimized.content)

/-- Embedding of `LiveContextManager.get_current_context`: an unknown
session id yields the empty string and leaves the state untouched; a known
session may be auto-optimized on the fly first (the Python `state`
variable aliases the mutated object, so the post-optimization buffer is
returned). -/
def LiveContextManager.get_current_context (st : LiveContextManager) (now : Nat)
    (session_id : String) : Except String String × LiveContextManager :=
  match st.conversations session_id with
  | none => (.ok "", st)
  | some state =>
    if st.max_context_length < (state.total_tokens_estimate : Int) then
      let r := st.auto_optimize_context now session_id
      match r.2 with
      | some e => (.error e, r.1)
      | none => (.ok (((r.1.conversations session_id).getD state).context_buffer), r.1)
    else
      (.ok state.context_buffer, st)

/-! ## Session persistence (`context.py` lines 265-349)

Disk I/O (`_load_sessions` / `_save_sessions`) is outside the model; the
`sessions` dict is modelled as an insertion-ordered association list.  A
record's `last_updated` field holds in Python an ISO timestamp string that
`cleanup_old_sessions` re-parses with `datetime.fromisoformat`; it is
modelled as `Option Int` (seconds): `some t` for a string that parses to
time `t`, `none` for a missing or unparsable one (`fromisoformat` is
interpreter library code, not repository code). -/

/-- One value of the `BasicSessionManager.sessions` dict. -/
structure SessionRec where
  context : String
  model : String
  last_updated : Option Int
  message_count : Nat
deriving DecidableEq, Repr

/-- Number of seconds of `timedelta(days=1)`. -/
def secondsPerDay : Int := 86400

/-- Whether `cleanup_old_sessions` at time `now` with the given `days`
argument puts a record on its removal list: a parsable `last_updated`
strictly older than the cutoff, or an unparsable/missing one (the
`except (ValueError, KeyError)` branch). -/
def sessionExpired (now : Int) (days : Int) (rec : SessionRec) : Bool :=
  match rec.last_updated with
  | some t => decide (t < now - days * secondsPerDay)
  | none => true

/-- Embedding of `BasicSessionManager.cleanup_old_sessions`: collect the
expired records, delete them, and return how many were removed (the final
`_save_sessions()` disk write is outside the model). -/
def BasicSessionManager.cleanup_old_sessions (now : Int)
    (sessions : List (String × SessionRec)) (days : Int := 30) :
    List (String × SessionRec) × Nat :=
  let sessions_to_remove := sessions.filter (fun p => sessionExpired now days p.2)
  (sessions.filter (fun p => !sessionExpired now days p.2), sessions_to_remove.length)

/-! ## Auxiliary definitions for statements and concrete instances -/

/-- A 200-character segment content (the scenario of spec §8.8). -/
def x200 : String := ⟨List.replicate 200 'x'⟩

/-- Spec-side reconstruction target for the segmentation invariant: the
transcript with its blank (empty or whitespace-only) lines removed and the
remaining lines rejoined with single newlines.  Built from the claim's
words, to be compared with the engine's segmentation. -/
def removeBlankLines (conversation : String) : String :=
  joinLines ((pySplit conversation).filter pyStripTruthy)

/-- One call's worth of arguments to `measure_optimization_quality`. -/
structure MeasureInput where
  original : String
  optimized : String
  segments : List ContextSegment
  target_model : String
  execution_time_ms : ℚ

/-- The cache key a call with these arguments produces. -/
def inputKey (md5hex : String → String) (i : MeasureInput) : String :=
  generateCacheKey md5hex i.original i.optimized i.target_model

/-- Run a sequence of measurement calls, threading the measurer state. -/
def runMeasurer (md5hex : String → String) (st : MeasurerState)
    (inputs : List MeasureInput) : MeasurerState :=
  inputs.foldl (fun s i => (measure_optimization_quality md5hex s i.original i.optimized
    i.segments i.target_model i.execution_time_ms).2) st

/-- A concrete list of 101 measurement calls whose cache keys (under the
identity in place of md5) are pairwise distinct. -/
def c6Inputs : List MeasureInput :=
  (List.range 101).map (fun n => ⟨toString n, "", [], "", 0⟩)

/-- Concrete five one-character segments (all of equal importance). -/
def c1SegsA : List ContextSegment :=
  [⟨"a", .CHAT, 0, 0, 0⟩, ⟨"b", .CHAT, 0, 0, 0⟩, ⟨"c", .CHAT, 0, 0, 0⟩,
   ⟨"d", .CHAT, 0, 0, 0⟩, ⟨"e", .CHAT, 0, 0, 0⟩]

/-- Concrete five one-character segments for the `context.py` variant. -/
def c1SegsB : List BasicContextSegment :=
  [⟨"a", .CHAT, 0, 0⟩, ⟨"b", .CHAT, 0, 0⟩, ⟨"c", .CHAT, 0, 0⟩,
   ⟨"d", .CHAT, 0, 0⟩, ⟨"e", .CHAT, 0, 0⟩]

/-! ## Length accounting for the selection loop (claims C1, C2) -/

theorem sumLen_append (a b : List String) : sumLen (a ++ b) = sumLen a + sumLen b := by
  simp [sumLen]

theorem joinLines_length_le (l : List String) :
    (joinLines l).length ≤ sumLen l + (l.length - 1) := by
  induction l with
  | nil => simp [joinLines, sumLen]
  | cons s rest ih =>
    cases rest with
    | nil => simp [joinLines, sumLen]
    | cons t ts =>
      have h1 : joinLines (s :: t :: ts) = s ++ "\n" ++ joinLines (t :: ts) := rfl
      rw [h1, String.length_append, String.length_append]
      have h2 : ("\n" : String).length = 1 := rfl
      simp only [sumLen, List.map_cons, List.sum_cons, List.length_cons] at *
      omega

theorem pySlice_length_le (s : String) (n : Nat) : (pySlice s n).length ≤ n := by
  have : (pySlice s n).length = (s.data.take n).length := rfl
  rw [this, List.length_take]
  exact min_le_left _ _

theorem selectLoop_sumLen (content : α → String) (M : Int) :
    ∀ (segs : List α) (acc : List String) (cur : Nat), (cur : Int) ≤ M →
      (sumLen (selectLoop content M segs acc cur) : Int) + (cur : Int)
        ≤ (sumLen acc : Int) + M := by
  intro segs
  induction segs with
  | nil =>
    intro acc cur h
    simp only [selectLoop]
    omega
  | cons seg rest ih =>
    intro acc cur h
    simp only [selectLoop]
    split
    · -- whole segment appended
      rename_i hfit
      have := ih (acc ++ [content seg]) (cur + (content seg).length) (by push_cast at hfit ⊢; omega)
      rw [sumLen_append] at this
      have hs : sumLen [content seg] = (content seg).length := by simp [sumLen]
      rw [hs] at this
      push_cast at this ⊢
      omega
    · split
      · -- truncated segment appended, then stop
        rename_i hfit hrem
        rw [sumLen_append]
        have hs : sumLen [pySlice (content seg) (M - (cur : Int) - 3).toNat ++ ("...")]
            = (pySlice (content seg) (M - (cur : Int) - 3).toNat).length + 3 := by
          simp [sumLen, String.length_append]
          rfl
        rw [hs]
        have h1 := pySlice_length_le (content seg) (M - (cur : Int) - 3).toNat
        have h2 : ((M - (cur : Int) - 3).toNat : Int) = M - (cur : Int) - 3 := by omega
        push_cast
        omega
      · -- nothing appended
        omega

theorem selectLoop_length_le (content : α → String) (M : Int) :
    ∀ (segs : List α) (acc : List String) (cur : Nat),
      (selectLoop content M segs acc cur).length ≤ acc.length + segs.length := by
  intro segs
  induction segs with
  | nil => intro acc cur; simp [selectLoop]
  | cons seg rest ih =>
    intro acc cur
    simp only [selectLoop]
    split
    · have := ih (acc ++ [content seg]) (cur + (content seg).length)
      simp only [List.length_append, List.length_cons, List.length_nil] at *
      omega
    · split
      · simp only [List.length_append, List.length_cons, List.length_nil]
        omega
      · simp only [List.length_cons]
        omega

theorem insertByScoreDesc_length (score : α → ℚ) (s : α) (l : List α) :
    (insertByScoreDesc score s l).length = l.length + 1 := by
  induction l with
  | nil => rfl
  | cons t ts ih =>
    simp only [insertByScoreDesc]
    split <;> simp [ih]

theorem sortByScoreDesc_length (score : α → ℚ) (l : List α) :
    (sortByScoreDesc score l).length = l.length := by
  induction l with
  | nil => rfl
  | cons x xs ih => simp [sortByScoreDesc, insertByScoreDesc_length, ih]

theorem select_join_bound (content : α → String) (M : Int) (h : 0 ≤ M) (l : List α) :
    ((joinLines (selectLoop content M l [] 0)).length : Int)
      ≤ M + max ((l.length : Int) - 1) 0 := by
  have h1 := selectLoop_sumLen content M l [] 0 (by exact_mod_cast h)
  have h2 := selectLoop_length_le content M l [] 0
  have h3 := joinLines_length_le (selectLoop content M l [] 0)
  have h0 : sumLen ([] : List String) = 0 := rfl
  rw [h0] at h1
  simp only [List.length_nil, Nat.cast_zero, zero_add, add_zero] at h1 h2
  have h4 : (0 : Int) ≤ max ((l.length : Int) - 1) 0 := le_max_right _ _
  rcases Nat.eq_zero_or_pos (selectLoop content M l [] 0).length with h5 | h5
  · have : selectLoop content M l [] 0 = [] := List.length_eq_zero.mp h5
    rw [this]
    have : (joinLines [] : String).length = 0 := rfl
    rw [this]
    push_cast
    omega
  · have h6 : ((l.length : Int) - 1) ≤ max ((l.length : Int) - 1) 0 := le_max_left _ _
    zify at h3
    omega

/-- C1: the claim bounds the selected output by `max_length + 3`; in fact
one newline is inserted per additional selected segment, so the correct
bound grows with the number of segments: the output length is at most
`max_length + (n - 1)` for `n` input segments (for both implementations),
and `max_length + 3` fails as soon as five segments are selected. -/
theorem C1_select_budget_amended :
    (∀ (segments : List ContextSegment) (max_length : Int), 0 ≤ max_length →
      ((ContextEngine.optimize_context segments max_length).length : Int)
        ≤ max_length + max ((segments.length : Int) - 1) 0)
    ∧ (∀ (segments : List BasicContextSegment) (max_length : Int), 0 ≤ max_length →
      ((BasicContextEngine.optimize_context segments max_length).length : Int)
        ≤ max_length + max ((segments.length : Int) - 1) 0) := by
  constructor
  · intro segments M h
    have := select_join_bound ContextSegment.content M h
      (sortByScoreDesc ContextSegment.importance_score segments)
    rw [sortByScoreDesc_length] at this
    exact this
  · intro segments M h
    have := select_join_bound BasicContextSegment.content M h
      (sortByScoreDesc BasicContextSegment.importance_score segments)
    rw [sortByScoreDesc_length] at this
    exact this

/-- Witness for C1: the amended bound applied to five one-character
segments with `max_length = 5` (output `"a\nb\nc\nd\ne"`, length 9 ≤ 5 + 4). -/
theorem C1_select_budget_witness :
    ((ContextEngine.optimize_context c1SegsA 5).length : Int)
      ≤ 5 + max ((c1SegsA.length : Int) - 1) 0
    ∧ ((BasicContextEngine.optimize_context c1SegsB 5).length : Int)
      ≤ 5 + max ((c1SegsB.length : Int) - 1) 0 :=
  ⟨C1_select_budget_amended.1 c1SegsA 5 (by norm_num),
   C1_select_budget_amended.2 c1SegsB 5 (by norm_num)⟩

/-- Counterexample to C1 as stated: five one-character segments with
`max_length = 5` all fit (their content lengths sum to 5), but the four
newline separators give an output of length 9 > 5 + 3. -/
theorem C1_select_budget_counterexample :
    (ContextEngine.optimize_context c1SegsA 5) = "a\nb\nc\nd\ne"
    ∧ ¬ (((ContextEngine.optimize_context c1SegsA 5).length : Int) ≤ 5 + 3) := by
  constructor
  · decide
  · decide

/-- C2: the claim predicts `content[:47] + "..."`; in fact with
`max_length = 50` the 200-character segment does not fit and the remaining
budget of 50 characters fails the `remaining > 100` test, so the loop
stops without emitting anything: both implementations return the empty
string. -/
theorem C2_truncation_amended :
    ContextEngine.optimize_context [⟨x200, .CHAT, 1, 0, 0⟩] 50 = ""
    ∧ BasicContextEngine.optimize_context [⟨x200, .CHAT, 1, 0⟩] 50 = "" := by
  constructor
  · decide
  · decide

/-- Counterexample to C2 as stated: the returned string is empty, not the
50-character truncation the claim describes. -/
theorem C2_truncation_counterexample :
    ContextEngine.optimize_context [⟨x200, .CHAT, 1, 0, 0⟩] 50
      ≠ pySlice x200 47 ++ ("...")
    ∧ ContextEngine.optimize_context [⟨x200, .CHAT, 1, 0, 0⟩] 50 = "" := by
  constructor
  · decide
  · decide

/-- C3: the fallback-to-default behaviour holds only for
`BasicContextEngine.optimize_handoff` (`context.py`), whose try/except
replaces an unknown target backend by `ModelType.LOCAL`;
`ContextEngine.optimize_handoff` (`context_engine.py`) has no handler and
raises `ValueError` for the same input. -/
theorem C3_unknown_backend_amended :
    ∀ (conversation source_model target_model : String) (max_length : Int) (now : Nat),
      ModelType.ofString (pyLower target_model) = none →
      BasicContextEngine.optimize_handoff now conversation source_model target_model max_length
        = BasicContextEngine.handoff_core now conversation ModelType.LOCAL max_length
      ∧ ContextEngine.optimize_handoff conversation source_model target_model max_length
        = Except.error ("ValueError: not a valid ModelType") := by
  intro conversation source_model target_model max_length now h
  constructor
  · simp [BasicContextEngine.optimize_handoff, h]
  · simp [ContextEngine.optimize_handoff, h]

/-- Witness for C3: the unknown backend name "gpt". -/
theorem C3_unknown_backend_witness :
    BasicContextEngine.optimize_handoff 0 ("hi") ("claude") ("gpt") 4000
      = BasicContextEngine.handoff_core 0 ("hi") ModelType.LOCAL 4000
    ∧ ContextEngine.optimize_handoff ("hi") ("claude") ("gpt") 4000
      = Except.error ("ValueError: not a valid ModelType") :=
  C3_unknown_backend_amended "hi" "claude" "gpt" 4000 0 (by decide)

/-- Counterexample to C3 as stated: `ContextEngine.optimize_handoff` does
not fall back for the unknown backend "gpt" — it raises (modelled as an
`Except.error`), so the "both implementations" part of the claim fails. -/
theorem C3_unknown_backend_counterexample :
    ContextEngine.optimize_handoff ("hello") ("claude") ("gpt") 4000
      = Except.error ("ValueError: not a valid ModelType") := by
  rfl

/-- C7: the four scenario classifications hold for
`BasicContextClassifier` (`context.py`), and the priority order
(STRATEGIC before DEBUG before IMPLEMENTATION, default CHAT) holds for
both classifiers; but `ContextClassifier` (`context_engine.py`) lacks the
"def" keyword, so it classifies "def foo(): pass" as CHAT, not
IMPLEMENTATION. -/
theorem C7_classification_amended :
    BasicContextClassifier.classify_segment ("Let's discuss the architecture approach")
      = ContextType.STRATEGIC
    ∧ BasicContextClassifier.classify_segment ("Getting a traceback on this function")
      = ContextType.DEBUG
    ∧ BasicContextClassifier.classify_segment ("def foo(): pass")
      = ContextType.IMPLEMENTATION
    ∧ BasicContextClassifier.classify_segment ("thanks, that helps") = ContextType.CHAT
    ∧ ContextClassifier.classify_segment ("Let's discuss the architecture approach")
      = ContextType.STRATEGIC
    ∧ ContextClassifier.classify_segment ("Getting a traceback on this function")
      = ContextType.DEBUG
    ∧ ContextClassifier.classify_segment ("def foo(): pass") = ContextType.CHAT
    ∧ ContextClassifier.classify_segment ("thanks, that helps") = ContextType.CHAT
    ∧ ContextClassifier.classify_segment ("design error") = ContextType.STRATEGIC
    ∧ BasicContextClassifier.classify_segment ("design error") = ContextType.STRATEGIC
    ∧ ContextClassifier.classify_segment ("error in function") = ContextType.DEBUG
    ∧ BasicContextClassifier.classify_segment ("error in function") = ContextType.DEBUG := by
  decide

/-- Counterexample to C7 as stated: `ContextClassifier` of
`context_engine.py` maps "def foo(): pass" to CHAT (its implementation
keyword list has no "def"), so the claim fails for that implementation. -/
theorem C7_classification_counterexample :
    ContextClassifier.classify_segment ("def foo(): pass") = ContextType.CHAT
    ∧ ContextType.CHAT ≠ ContextType.IMPLEMENTATION := by
  constructor
  · decide
  · decide

/-! ## Segmentation reconstruction (claim C5) -/

theorem joinLines_cons_of_ne_nil (s : String) (rest : List String) (h : rest ≠ []) :
    joinLines (s :: rest) = s ++ "\n" ++ joinLines rest := by
  cases rest with
  | nil => exact absurd rfl h
  | cons t ts => rfl

theorem joinLines_append_of_ne_nil (l1 l2 : List String) (h1 : l1 ≠ []) (h2 : l2 ≠ []) :
    joinLines (l1 ++ l2) = joinLines l1 ++ "\n" ++ joinLines l2 := by
  induction l1 with
  | nil => exact absurd rfl h1
  | cons s rest ih =>
    cases rest with
    | nil =>
      have e : ([s] : List String) ++ l2 = s :: l2 := rfl
      rw [e, joinLines_cons_of_ne_nil s l2 h2]
      rfl
    | cons u us =>
      have e : ((s :: u :: us) : List String) ++ l2 = s :: ((u :: us) ++ l2) := rfl
      rw [e, joinLines_cons_of_ne_nil s _ (by simp), ih (by simp),
        joinLines_cons_of_ne_nil s (u :: us) (by simp)]
      simp [String.append_assoc]

theorem joinLines_flatten (groups : List (List String)) (h : ∀ g ∈ groups, g ≠ []) :
    joinLines (groups.map joinLines) = joinLines groups.flatten := by
  induction groups with
  | nil => rfl
  | cons g gs ih =>
    cases gs with
    | nil => simp [joinLines]
    | cons g2 gs2 =>
      have hg : g ≠ [] := h g (by simp)
      have hflat : (g2 :: gs2).flatten ≠ [] := by
        have hg2 : g2 ≠ [] := h g2 (by simp)
        simp only [List.flatten_cons]
        intro hc
        exact hg2 (List.append_eq_nil.mp hc).1
      have e1 : (g :: g2 :: gs2).map joinLines
          = joinLines g :: (g2 :: gs2).map joinLines := rfl
      have e2 : joinLines (joinLines g :: (g2 :: gs2).map joinLines)
          = joinLines g ++ "\n" ++ joinLines ((g2 :: gs2).map joinLines) := rfl
      rw [e1, e2, ih (fun x hx => h x (by simp [hx]))]
      have e3 : (g :: g2 :: gs2).flatten = g ++ (g2 :: gs2).flatten := rfl
      rw [e3, joinLines_append_of_ne_nil g _ hg hflat]

theorem segmentCore_flatten (classify : String → ContextType) (total : Nat) :
    ∀ (lines : List String) (i : Nat) (acc : List RawSeg) (cur : List String)
      (ct : Option ContextType) (start : Nat), (ct = none → cur = []) →
      ((segmentCore classify total lines i acc cur ct start).map RawSeg.lines).flatten
        = (acc.map RawSeg.lines).flatten ++ cur ++ lines.filter pyStripTruthy := by
  intro lines
  induction lines with
  | nil =>
    intro i acc cur ct start h
    cases ct with
    | none => simp [segmentCore, h rfl]
    | some t =>
      by_cases hc : cur.isEmpty
      · rw [List.isEmpty_iff] at hc
        simp [segmentCore, hc]
      · simp only [segmentCore, hc, if_neg]
        simp [List.filter_nil]
  | cons line rest ih =>
    intro i acc cur ct start h
    by_cases hb : pyStripTruthy line
    · cases ct with
      | none =>
        have e : segmentCore classify total (line :: rest) i acc cur none start
            = segmentCore classify total rest (i + 1) acc (cur ++ [line])
              (some (classify line)) i := by
          simp [segmentCore, hb]
        rw [e, ih (i + 1) acc (cur ++ [line]) (some (classify line)) i (by simp)]
        simp [h rfl, List.filter_cons, hb]
      | some t =>
        by_cases he : classify line = t
        · have e : segmentCore classify total (line :: rest) i acc cur (some t) start
              = segmentCore classify total rest (i + 1) acc (cur ++ [line]) (some t) start := by
            simp [segmentCore, hb, he]
          rw [e, ih (i + 1) acc (cur ++ [line]) (some t) start (by simp)]
          simp [List.filter_cons, hb]
        · by_cases hc : cur.isEmpty
          · have e : segmentCore classify total (line :: rest) i acc cur (some t) start
                = segmentCore classify total rest (i + 1) acc [line] (some (classify line)) i := by
              simp [segmentCore, hb, he, hc]
            rw [List.isEmpty_iff] at hc
            rw [e, ih (i + 1) acc [line] (some (classify line)) i (by simp)]
            simp [hc, List.filter_cons, hb]
          · have e : segmentCore classify total (line :: rest) i acc cur (some t) start
                = segmentCore classify total rest (i + 1) (acc ++ [⟨cur, t, start, i - 1⟩])
                  [line] (some (classify line)) i := by
              simp [segmentCore, hb, he, hc]
            rw [e, ih (i + 1) _ [line] (some (classify line)) i (by simp)]
            simp [List.filter_cons, hb]
    · have e : segmentCore classify total (line :: rest) i acc cur ct start
          = segmentCore classify total rest (i + 1) acc cur ct start := by
        simp [segmentCore, hb]
      rw [e, ih (i + 1) acc cur ct start h]
      simp [List.filter_cons, hb]

theorem segmentCore_lines_ne_nil (classify : String → ContextType) (total : Nat) :
    ∀ (lines : List String) (i : Nat) (acc : List RawSeg) (cur : List String)
      (ct : Option ContextType) (start : Nat), (∀ r ∈ acc, r.lines ≠ []) →
      ∀ r ∈ segmentCore classify total lines i acc cur ct start, r.lines ≠ [] := by
  intro lines
  induction lines with
  | nil =>
    intro i acc cur ct start hacc
    cases ct with
    | none => simpa [segmentCore] using hacc
    | some t =>
      by_cases hc : cur.isEmpty
      · simpa [segmentCore, hc] using hacc
      · simp only [segmentCore, hc, if_neg]
        intro r hr
        rcases List.mem_append.mp hr with hr | hr
        · exact hacc r hr
        · simp only [List.mem_singleton] at hr
          subst hr
          simpa [List.isEmpty_iff] using hc
  | cons line rest ih =>
    intro i acc cur ct start hacc
    by_cases hb : pyStripTruthy line
    · cases ct with
      | none =>
        have e : segmentCore classify total (line :: rest) i acc cur none start
            = segmentCore classify total rest (i + 1) acc (cur ++ [line])
              (some (classify line)) i := by
          simp [segmentCore, hb]
        rw [e]
        exact ih (i + 1) acc (cur ++ [line]) (some (classify line)) i hacc
      | some t =>
        by_cases he : classify line = t
        · have e : segmentCore classify total (line :: rest) i acc cur (some t) start
              = segmentCore classify total rest (i + 1) acc (cur ++ [line]) (some t) start := by
            simp [segmentCore, hb, he]
          rw [e]
          exact ih (i + 1) acc (cur ++ [line]) (some t) start hacc
        · by_cases hc : cur.isEmpty
          · have e : segmentCore classify total (line :: rest) i acc cur (some t) start
                = segmentCore classify total rest (i + 1) acc [line] (some (classify line)) i := by
              simp [segmentCore, hb, he, hc]
            rw [e]
            exact ih (i + 1) acc [line] (some (classify line)) i hacc
          · have e : segmentCore classify total (line :: rest) i acc cur (some t) start
                = segmentCore classify total rest (i + 1) (acc ++ [⟨cur, t, start, i - 1⟩])
                  [line] (some (classify line)) i := by
              simp [segmentCore, hb, he, hc]
            rw [e]
            refine ih (i + 1) _ [line] (some (classify line)) i ?_
            intro r hr
            rcases List.mem_append.mp hr with hr | hr
            · exact hacc r hr
            · simp only [List.mem_singleton] at hr
              subst hr
              simpa [List.isEmpty_iff] using hc
    · have e : segmentCore classify total (line :: rest) i acc cur ct start
          = segmentCore classify total rest (i + 1) acc cur ct start := by
        simp [segmentCore, hb]
      rw [e]
      exact ih (i + 1) acc cur ct start hacc

theorem segment_reconstruction (classify : String → ContextType) (lines : List String) :
    joinLines ((segmentCore classify lines.length lines 0 [] [] none 0).map
      (fun r => joinLines r.lines)) = joinLines (lines.filter pyStripTruthy) := by
  have h1 := segmentCore_flatten classify lines.length lines 0 [] [] none 0 (fun _ => rfl)
  have h2 := segmentCore_lines_ne_nil classify lines.length lines 0 [] [] none 0
    (by intro r hr; cases hr)
  have e1 : (segmentCore classify lines.length lines 0 [] [] none 0).map
      (fun r => joinLines r.lines)
      = ((segmentCore classify lines.length lines 0 [] [] none 0).map RawSeg.lines).map
        joinLines := by
    rw [List.map_map]
    rfl
  rw [e1, joinLines_flatten _ (by
    intro g hg
    rcases List.mem_map.mp hg with ⟨r, hr, hge⟩
    subst hge
    exact h2 r hr)]
  rw [h1]
  simp

/-- C5: for every transcript (and both implementations), joining the
segment contents in original order with single newlines yields exactly the
transcript with its blank (empty or whitespace-only) lines removed, each
remaining line verbatim; blank lines are skipped without forcing a
boundary. -/
theorem C5_reconstruction :
    ∀ (conversation : String) (now : Nat),
      joinLines ((ContextEngine.segment_conversation conversation).map ContextSegment.content)
        = removeBlankLines conversation
      ∧ joinLines ((BasicContextEngine.segment_conversation now conversation).map
          BasicContextSegment.content) = removeBlankLines conversation := by
  intro conversation now
  constructor
  · have e : (ContextEngine.segment_conversation conversation).map ContextSegment.content
        = (segmentCore ContextClassifier.classify_segment (pySplit conversation).length
            (pySplit conversation) 0 [] [] none 0).map (fun r => joinLines r.lines) := by
      simp [ContextEngine.segment_conversation, List.map_map]
    rw [e, segment_reconstruction]
    rfl
  · have e : (BasicContextEngine.segment_conversation now conversation).map
        BasicContextSegment.content
        = (segmentCore BasicContextClassifier.classify_segment (pySplit conversation).length
            (pySplit conversation) 0 [] [] none 0).map (fun r => joinLines r.lines) := by
      simp [BasicContextEngine.segment_conversation, List.map_map]
    rw [e, segment_reconstruction]
    rfl

/-! ## Quality-score bounds (claim C4) -/

theorem clamp01_mem (x : ℚ) : 0 ≤ clamp01 x ∧ clamp01 x ≤ 1 :=
  ⟨le_max_left _ _, max_le (by norm_num) (min_le_left _ _)⟩

theorem strLength_pos (s : String) (h : s ≠ "") : 0 < s.length := by
  cases s with
  | mk data =>
    cases data with
    | nil => exact absurd rfl h
    | cons c cs =>
      have : (String.mk (c :: cs)).length = cs.length + 1 := rfl
      omega

theorem natDiv_mem01 (a b : Nat) (hle : a ≤ b) (hb : 0 < b) :
    0 ≤ ((a : ℚ) / (b : ℚ)) ∧ ((a : ℚ) / (b : ℚ)) ≤ 1 := by
  constructor
  · positivity
  · rw [div_le_one (by exact_mod_cast hb)]
    exact_mod_cast hle

theorem measureCoherence_mem (original optimized : String) :
    0 ≤ measureCoherence original optimized ∧ measureCoherence original optimized ≤ 1 := by
  unfold measureCoherence
  dsimp only
  split
  · norm_num
  · exact clamp01_mem _

theorem measureCompleteness_mem (original optimized : String)
    (segments : List ContextSegment) (h : optimized.length ≤ original.length) :
    0 ≤ measureCompleteness original optimized segments
      ∧ measureCompleteness original optimized segments ≤ 1 := by
  unfold measureCompleteness
  dsimp only
  split
  · split
    · rename_i hne
      exact natDiv_mem01 _ _ h (strLength_pos original hne)
    · norm_num
  · exact clamp01_mem _

theorem measureRelevance_mem (optimized target_model : String) :
    0 ≤ measureRelevance optimized target_model
      ∧ measureRelevance optimized target_model ≤ 1 := by
  unfold measureRelevance
  dsimp only
  split
  · norm_num
  · exact clamp01_mem _

theorem measureCompressionEfficiency_mem (original optimized : String)
    (segments : List ContextSegment) (h : optimized.length ≤ original.length) :
    0 ≤ measureCompressionEfficiency original optimized segments
      ∧ measureCompressionEfficiency original optimized segments ≤ 1 := by
  unfold measureCompressionEfficiency
  dsimp only
  split
  · norm_num
  · split
    · rename_i hne _
      exact natDiv_mem01 _ _ h (Nat.pos_of_ne_zero hne)
    · exact clamp01_mem _

theorem measureSemanticPreservation_mem (original optimized : String) :
    0 ≤ measureSemanticPreservation original optimized
      ∧ measureSemanticPreservation original optimized ≤ 1 := by
  unfold measureSemanticPreservation
  dsimp only
  split
  · norm_num
  · exact clamp01_mem _

theorem overall_mem (a b c d e : ℚ) (ha : 0 ≤ a ∧ a ≤ 1) (hb : 0 ≤ b ∧ b ≤ 1)
    (hc : 0 ≤ c ∧ c ≤ 1) (hd : 0 ≤ d ∧ d ≤ 1) (he : 0 ≤ e ∧ e ≤ 1) :
    0 ≤ a * (1/5) + b * (3/10) + c * (1/5) + d * (3/20) + e * (3/20)
      ∧ a * (1/5) + b * (3/10) + c * (1/5) + d * (3/20) + e * (3/20) ≤ 1 := by
  obtain ⟨ha1, ha2⟩ := ha
  obtain ⟨hb1, hb2⟩ := hb
  obtain ⟨hc1, hc2⟩ := hc
  obtain ⟨hd1, hd2⟩ := hd
  obtain ⟨he1, he2⟩ := he
  constructor <;> nlinarith

/-- C4: the claim universally bounds every sub-score to [0,1]; two
fallback paths escape the clamp (completeness with an empty segment list,
compression efficiency when no important content is identified), both
returning the raw length ratio `len(optimized)/len(original)`.  The
bounds do hold for every input whose optimized string is no longer than
the original — which is the only restriction the counterexample forces. -/
theorem C4_quality_bounds_amended :
    ∀ (md5hex : String → String) (original optimized : String)
      (segments : List ContextSegment) (target_model : String) (execution_time_ms : ℚ),
      optimized.length ≤ original.length →
      (0 ≤ (measure_optimization_quality md5hex ⟨[]⟩ original optimized segments target_model
          execution_time_ms).1.coherence_score
        ∧ (measure_optimization_quality md5hex ⟨[]⟩ original optimized segments target_model
          execution_time_ms).1.coherence_score ≤ 1)
      ∧ (0 ≤ (measure_optimization_quality md5hex ⟨[]⟩ original optimized segments target_model
          execution_time_ms).1.completeness_score
        ∧ (measure_optimization_quality md5hex ⟨[]⟩ original optimized segments target_model
          execution_time_ms).1.completeness_score ≤ 1)
      ∧ (0 ≤ (measure_optimization_quality md5hex ⟨[]⟩ original optimized segments target_model
          execution_time_ms).1.relevance_score
        ∧ (measure_optimization_quality md5hex ⟨[]⟩ original optimized segments target_model
          execution_time_ms).1.relevance_score ≤ 1)
      ∧ (0 ≤ (measure_optimization_quality md5hex ⟨[]⟩ original optimized segments target_model
          execution_time_ms).1.compression_efficiency
        ∧ (measure_optimization_quality md5hex ⟨[]⟩ original optimized segments target_model
          execution_time_ms).1.compression_efficiency ≤ 1)
      ∧ (0 ≤ (measure_optimization_quality md5hex ⟨[]⟩ original optimized segments target_model
          execution_time_ms).1.semantic_preservation
        ∧ (measure_optimization_quality md5hex ⟨[]⟩ original optimized segments target_model
          execution_time_ms).1.semantic_preservation ≤ 1)
      ∧ (0 ≤ (measure_optimization_quality md5hex ⟨[]⟩ original optimized segments target_model
          execution_time_ms).1.overall_score
        ∧ (measure_optimization_quality md5hex ⟨[]⟩ original optimized segments target_model
          execution_time_ms).1.overall_score ≤ 1) := by
  intro md5hex original optimized segments target_model execution_time_ms h
  exact ⟨measureCoherence_mem original optimized,
    measureCompleteness_mem original optimized segments h,
    measureRelevance_mem optimized target_model,
    measureCompressionEfficiency_mem original optimized segments h,
    measureSemanticPreservation_mem original optimized,
    overall_mem _ _ _ _ _ (measureCoherence_mem original optimized)
      (measureCompleteness_mem original optimized segments h)
      (measureRelevance_mem optimized target_model)
      (measureCompressionEfficiency_mem original optimized segments h)
      (measureSemanticPreservation_mem original optimized)⟩

/-- Witness for C4: the bounds at a concrete input ("ab" compressed to "a",
empty segment list, target "claude"). -/
theorem C4_quality_bounds_witness :
    (0 ≤ (measure_optimization_quality (fun s => s) ⟨[]⟩ ("ab") ("a") [] ("claude")
        0).1.coherence_score
      ∧ (measure_optimization_quality (fun s => s) ⟨[]⟩ ("ab") ("a") [] ("claude")
        0).1.coherence_score ≤ 1)
    ∧ (0 ≤ (measure_optimization_quality (fun s => s) ⟨[]⟩ ("ab") ("a") [] ("claude")
        0).1.completeness_score
      ∧ (measure_optimization_quality (fun s => s) ⟨[]⟩ ("ab") ("a") [] ("claude")
        0).1.completeness_score ≤ 1)
    ∧ (0 ≤ (measure_optimization_quality (fun s => s) ⟨[]⟩ ("ab") ("a") [] ("claude")
        0).1.relevance_score
      ∧ (measure_optimization_quality (fun s => s) ⟨[]⟩ ("ab") ("a") [] ("claude")
        0).1.relevance_score ≤ 1)
    ∧ (0 ≤ (measure_optimization_quality (fun s => s) ⟨[]⟩ ("ab") ("a") [] ("claude")
        0).1.compression_efficiency
      ∧ (measure_optimization_quality (fun s => s) ⟨[]⟩ ("ab") ("a") [] ("claude")
        0).1.compression_efficiency ≤ 1)
    ∧ (0 ≤ (measure_optimization_quality (fun s => s) ⟨[]⟩ ("ab") ("a") [] ("claude")
        0).1.semantic_preservation
      ∧ (measure_optimization_quality (fun s => s) ⟨[]⟩ ("ab") ("a") [] ("claude")
        0).1.semantic_preservation ≤ 1)
    ∧ (0 ≤ (measure_optimization_quality (fun s => s) ⟨[]⟩ ("ab") ("a") [] ("claude")
        0).1.overall_score
      ∧ (measure_optimization_quality (fun s => s) ⟨[]⟩ ("ab") ("a") [] ("claude")
        0).1.overall_score ≤ 1) :=
  C4_quality_bounds_amended (fun s => s) "ab" "a" [] "claude" 0 (by decide)

/-- Counterexample to C4 as stated: original "a", optimized "ab", empty
segment list — the completeness fallback returns the unclamped ratio
`len("ab")/len("a") = 2 > 1`. -/
theorem C4_quality_bounds_counterexample :
    (measure_optimization_quality (fun s => s) ⟨[]⟩ ("a") ("ab") [] ("claude")
        0).1.completeness_score = 2
    ∧ ¬ ((measure_optimization_quality (fun s => s) ⟨[]⟩ ("a") ("ab") [] ("claude")
        0).1.completeness_score ≤ 1) := by
  have e : (measure_optimization_quality (fun s => s) ⟨[]⟩ ("a") ("ab") [] ("claude")
      0).1.completeness_score = measureCompleteness ("a") ("ab") [] := rfl
  have e2 : measureCompleteness ("a") ("ab") [] = 2 := by
    unfold measureCompleteness
    dsimp only
    rw [if_pos (by decide), if_pos (by decide)]
    norm_num [show (("ab" : String)).length = 2 from rfl, show (("a" : String)).length = 1 from rfl]
  refine ⟨by rw [e, e2], by rw [e, e2]; norm_num⟩

/-! ## Cache eviction (claim C6) -/

theorem measure_cache_miss (md5hex : String → String) (st : MeasurerState) (i : MeasureInput)
    (hfind : st.quality_cache.find?
      (fun p => p.1 == generateCacheKey md5hex i.original i.optimized i.target_model) = none)
    (hlen : st.quality_cache.length < 100) :
    (measure_optimization_quality md5hex st i.original i.optimized i.segments i.target_model
      i.execution_time_ms).2.quality_cache
      = st.quality_cache ++ [(inputKey md5hex i,
          computeQualityMetrics i.original i.optimized i.segments i.target_model
            i.execution_time_ms)] := by
  simp only [measure_optimization_quality, hfind]
  rw [if_neg (by simp only [List.length_append, List.length_cons, List.length_nil]; omega)]
  rfl

theorem runMeasurer_keys (md5hex : String → String) :
    ∀ (inputs : List MeasureInput) (st : MeasurerState),
      (st.quality_cache.map Prod.fst ++ inputs.map (inputKey md5hex)).Nodup →
      st.quality_cache.length + inputs.length ≤ 100 →
      (runMeasurer md5hex st inputs).quality_cache.map Prod.fst
        = st.quality_cache.map Prod.fst ++ inputs.map (inputKey md5hex) := by
  intro inputs
  induction inputs with
  | nil =>
    intro st h hlen
    simp [runMeasurer]
  | cons i rest ih =>
    intro st h hlen
    have hkey : inputKey md5hex i ∉ st.quality_cache.map Prod.fst := by
      rcases List.nodup_append.mp h with ⟨_, _, hdisj⟩
      intro hmem
      exact hdisj hmem (by simp)
    have hfind : st.quality_cache.find?
        (fun p => p.1 == generateCacheKey md5hex i.original i.optimized i.target_model)
        = none := by
      rw [List.find?_eq_none]
      intro x hx
      simp only [beq_iff_eq]
      intro hxe
      exact hkey (by
        rw [show inputKey md5hex i
          = generateCacheKey md5hex i.original i.optimized i.target_model from rfl, ← hxe]
        exact List.mem_map_of_mem Prod.fst hx)
    have hstep := measure_cache_miss md5hex st i hfind (by simp at hlen; omega)
    have hrun : runMeasurer md5hex st (i :: rest)
        = runMeasurer md5hex ((measure_optimization_quality md5hex st i.original i.optimized
            i.segments i.target_model i.execution_time_ms).2) rest := rfl
    rw [hrun, ih _ (by
        rw [hstep]
        simp only [List.map_append, List.map_cons, List.map_nil, List.append_assoc,
          List.nil_append, List.singleton_append]
        simpa using h)
      (by rw [hstep]; simp at hlen ⊢; omega)]
    rw [hstep]
    simp

/-- C6: after 101 calls with pairwise-distinct cache keys starting from an
empty measurer, the cache holds exactly 100 entries, its keys are the
101 keys minus the first, and the first-inserted key is the one evicted
(insertion-order eviction). -/
theorem C6_cache_eviction :
    ∀ (md5hex : String → String) (inputs : List MeasureInput),
      inputs.length = 101 →
      (inputs.map (inputKey md5hex)).Nodup →
      (runMeasurer md5hex ⟨[]⟩ inputs).quality_cache.length = 100
      ∧ (runMeasurer md5hex ⟨[]⟩ inputs).quality_cache.map Prod.fst
          = (inputs.map (inputKey md5hex)).drop 1
      ∧ ∀ k, (inputs.map (inputKey md5hex)).head? = some k →
          k ∉ (runMeasurer md5hex ⟨[]⟩ inputs).quality_cache.map Prod.fst := by
  intro md5hex inputs hlen hnd
  rcases List.eq_nil_or_concat inputs with hnil | ⟨init, last, hconcat⟩
  · rw [hnil] at hlen
    exact absurd hlen (by norm_num)
  rw [List.concat_eq_append] at hconcat
  subst hconcat
  have hinit : init.length = 100 := by
    simp only [List.length_append, List.length_cons, List.length_nil] at hlen
    omega
  have hkeys : (init ++ [last]).map (inputKey md5hex)
      = init.map (inputKey md5hex) ++ [inputKey md5hex last] := by simp
  rw [hkeys] at hnd
  rcases List.nodup_append.mp hnd with ⟨hnd1, _, hdisj⟩
  have hmid := runMeasurer_keys md5hex init ⟨[]⟩ (by simpa using hnd1) (by simp [hinit])
  simp only [List.map_nil, List.nil_append] at hmid
  have hmidlen : (runMeasurer md5hex ⟨[]⟩ init).quality_cache.length = 100 := by
    have := congrArg List.length hmid
    simpa [hinit] using this
  have hkeynot : inputKey md5hex last
      ∉ (runMeasurer md5hex ⟨[]⟩ init).quality_cache.map Prod.fst := by
    rw [hmid]
    intro hmem
    exact hdisj hmem (by simp)
  have hfind : (runMeasurer md5hex ⟨[]⟩ init).quality_cache.find?
      (fun p => p.1 == generateCacheKey md5hex last.original last.optimized last.target_model)
      = none := by
    rw [List.find?_eq_none]
    intro x hx
    simp only [beq_iff_eq]
    intro hxe
    exact hkeynot (by
      rw [show inputKey md5hex last
        = generateCacheKey md5hex last.original last.optimized last.target_model from rfl, ← hxe]
      exact List.mem_map_of_mem Prod.fst hx)
  have hrun : runMeasurer md5hex ⟨[]⟩ (init ++ [last])
      = (measure_optimization_quality md5hex (runMeasurer md5hex ⟨[]⟩ init) last.original
          last.optimized last.segments last.target_model last.execution_time_ms).2 := by
    simp [runMeasurer, List.foldl_append]
  have hfinal : (runMeasurer md5hex ⟨[]⟩ (init ++ [last])).quality_cache
      = ((runMeasurer md5hex ⟨[]⟩ init).quality_cache ++ [(inputKey md5hex last,
          computeQualityMetrics last.original last.optimized last.segments last.target_model
            last.execution_time_ms)]).drop 1 := by
    rw [hrun]
    simp only [measure_optimization_quality, hfind]
    rw [if_pos (by simp only [List.length_append, List.length_cons, List.length_nil]; omega)]
    rfl
  have hmap : (runMeasurer md5hex ⟨[]⟩ (init ++ [last])).quality_cache.map Prod.fst
      = (init.map (inputKey md5hex)).drop 1 ++ [inputKey md5hex last] := by
    rw [hfinal]
    have hsplit : ((runMeasurer md5hex ⟨[]⟩ init).quality_cache ++ [(inputKey md5hex last,
        computeQualityMetrics last.original last.optimized last.segments last.target_model
          last.execution_time_ms)]).drop 1
        = (runMeasurer md5hex ⟨[]⟩ init).quality_cache.drop 1 ++ [(inputKey md5hex last,
            computeQualityMetrics last.original last.optimized last.segments last.target_model
              last.execution_time_ms)] := by
      rw [List.drop_append_eq_append_drop]
      simp [hmidlen]
    rw [hsplit, List.map_append, List.map_drop, hmid]
    simp
  have hdropkeys : ((init ++ [last]).map (inputKey md5hex)).drop 1
      = (init.map (inputKey md5hex)).drop 1 ++ [inputKey md5hex last] := by
    rw [hkeys, List.drop_append_eq_append_drop]
    simp [hinit]
  refine ⟨?_, ?_, ?_⟩
  · have := congrArg List.length hmap
    simp only [List.length_map] at this
    rw [this]
    simp [List.length_drop, hinit]
  · rw [hmap, hdropkeys]
  · intro k hk
    rw [hmap]
    rw [hkeys] at hk
    obtain ⟨a, as, hi⟩ : ∃ a as, init.map (inputKey md5hex) = a :: as := by
      cases hcase : init.map (inputKey md5hex) with
      | nil =>
        have := congrArg List.length hcase
        simp [hinit] at this
      | cons a as => exact ⟨a, as, rfl⟩
    rw [hi] at hk hnd
    simp only [List.cons_append, List.head?_cons, Option.some_inj] at hk
    subst hk
    rw [hi]
    have h2 : (a ∉ as ∧ ¬a = inputKey md5hex last) ∧ (as ++ [inputKey md5hex last]).Nodup := by
      simpa using hnd
    simp [List.mem_append, h2.1.1, h2.1.2]

/-- Witness for C6: 101 calls whose originals are the decimal strings
"0", …, "100" (with the identity in place of md5, their cache keys are
pairwise distinct). -/
theorem C6_cache_eviction_witness :
    (runMeasurer (fun s => s) ⟨[]⟩ c6Inputs).quality_cache.length = 100
    ∧ (runMeasurer (fun s => s) ⟨[]⟩ c6Inputs).quality_cache.map Prod.fst
        = (c6Inputs.map (inputKey (fun s => s))).drop 1 :=
  ⟨(C6_cache_eviction (fun s => s) c6Inputs (by simp [c6Inputs]) (by decide)).1,
   (C6_cache_eviction (fun s => s) c6Inputs (by simp [c6Inputs]) (by decide)).2.1⟩

/-! ## Live-session errors (claims C8 and C10) -/

theorem dictSet_self (d : String → Option ConversationState) (k : String)
    (v : ConversationState) : dictSet d k v k = some v := by
  simp [dictSet]

theorem pyOrS_chain (model : Option String) :
    pyOrS model (pyOrS (some (pyOrS model ("claude"))) ("claude")) = pyOrS model ("claude") := by
  cases model with
  | none => simp [pyOrS]
  | some s =>
    by_cases hs : s = "" <;> simp [pyOrS, hs]

theorem auto_optimize_preserves (st : LiveContextManager) (now : Nat) (sid : String) :
    (((st.auto_optimize_context now sid).1).conversations sid).map
      (fun s => (s.messages, s.current_model))
      = (st.conversations sid).map (fun s => (s.messages, s.current_model)) := by
  unfold LiveContextManager.auto_optimize_context
  split
  · rfl
  · split
    · rfl
    · split
      · rfl
      · simp_all [dictSet_self]

/-- C8: switching models on a session id that was never started fails with
the not-found error and leaves the manager unchanged (no session is
created), whereas adding a message to an unknown session id auto-starts
it — with the supplied backend, or "claude" when none (or an empty
string) is supplied — and appends exactly that message. -/
theorem C8_unknown_session :
    (∀ (st : LiveContextManager) (now : Nat) (session_id new_model : String),
      st.conversations session_id = none →
      st.switch_model now session_id new_model
        = (st, .error (("No conversation found for session ") ++ session_id)))
    ∧ (∀ (st : LiveContextManager) (now : Nat) (session_id content role : String)
        (model : Option String),
      st.conversations session_id = none →
      (((st.add_message now session_id content role model).1).conversations session_id).map
          (fun cs => (cs.messages, cs.current_model))
        = some ([⟨content, pyOrS model ("claude"), now, role, 0⟩],
            some (pyOrS model ("claude")))) := by
  constructor
  · intro st now session_id new_model h
    unfold LiveContextManager.switch_model
    rw [h]
  · intro st now session_id content role model h
    unfold LiveContextManager.add_message
    rw [h]
    simp only [Option.isNone_none, if_true]
    have hstart : (st.start_conversation session_id
        (pyOrS model ("claude"))).conversations session_id
        = some ⟨[], some (pyOrS model ("claude")), "", 0, none⟩ := by
      simp [LiveContextManager.start_conversation, dictSet_self]
    simp only [hstart]
    split
    · -- auto-optimization triggered
      rw [auto_optimize_preserves]
      simp [dictSet_self, pyOrS_chain]
    · -- no auto-optimization
      simp [dictSet_self, pyOrS_chain]

/-- Witness for C8: a fresh manager with no sessions. -/
theorem C8_unknown_session_witness :
    ((⟨4000, 6000, fun _ => none⟩ : LiveContextManager).switch_model 0 ("s1") ("gemini")
      = (⟨4000, 6000, fun _ => none⟩, .error (("No conversation found for session ") ++ "s1")))
    ∧ ((((⟨4000, 6000, fun _ => none⟩ : LiveContextManager).add_message 0 ("s1") ("hello")
        ("user") none).1).conversations ("s1")).map
          (fun cs => (cs.messages, cs.current_model))
        = some ([⟨"hello", pyOrS none ("claude"), 0, "user", 0⟩],
            some (pyOrS none ("claude"))) :=
  ⟨C8_unknown_session.1 ⟨4000, 6000, fun _ => none⟩ 0 "s1" "gemini" rfl,
   C8_unknown_session.2 ⟨4000, 6000, fun _ => none⟩ 0 "s1" "hello" "user" none rfl⟩

/-- C10: reading the current context of a session id that was never
started returns the empty string without raising, and the manager state is
returned unchanged — no session entry is created for the id. -/
theorem C10_get_context_unknown :
    ∀ (st : LiveContextManager) (now : Nat) (session_id : String),
      st.conversations session_id = none →
      st.get_current_context now session_id = (.ok "", st) := by
  intro st now session_id h
  unfold LiveContextManager.get_current_context
  rw [h]

/-- Witness for C10: a fresh manager with no sessions. -/
theorem C10_get_context_unknown_witness :
    (⟨4000, 6000, fun _ => none⟩ : LiveContextManager).get_current_context 0 ("s1")
      = (.ok "", ⟨4000, 6000, fun _ => none⟩) :=
  C10_get_context_unknown ⟨4000, 6000, fun _ => none⟩ 0 "s1" rfl

/-! ## Session cleanup (claim C9) -/

theorem filter_length_split (p : α → Bool) (l : List α) :
    (l.filter p).length + (l.filter (fun x => !p x)).length = l.length := by
  induction l with
  | nil => rfl
  | cons x xs ih =>
    by_cases hx : p x <;> simp [List.filter_cons, hx] <;> omega

/-- C9: with `days = 30`, cleanup removes exactly the records whose
parsable `last_updated` is strictly older than 30 days before now or whose
`last_updated` is missing/unparsable, keeps the rest in order, and returns
the number of removed records; a 31-day-old record is removed and a
29-day-old record is retained. -/
theorem C9_cleanup :
    ∀ (now : Int) (sessions : List (String × SessionRec)),
      (BasicSessionManager.cleanup_old_sessions now sessions 30).1
        = sessions.filter (fun p => !sessionExpired now 30 p.2)
      ∧ (BasicSessionManager.cleanup_old_sessions now sessions 30).2
        = (sessions.filter (fun p => sessionExpired now 30 p.2)).length
      ∧ (BasicSessionManager.cleanup_old_sessions now sessions 30).2
          + ((BasicSessionManager.cleanup_old_sessions now sessions 30).1).length
        = sessions.length
      ∧ (∀ (rec : SessionRec) (t : Int), rec.last_updated = some t →
          (sessionExpired now 30 rec = true ↔ t < now - 30 * secondsPerDay))
      ∧ (∀ rec : SessionRec, rec.last_updated = none → sessionExpired now 30 rec = true)
      ∧ (∀ rec : SessionRec, rec.last_updated = some (now - 31 * secondsPerDay) →
          sessionExpired now 30 rec = true)
      ∧ (∀ rec : SessionRec, rec.last_updated = some (now - 29 * secondsPerDay) →
          sessionExpired now 30 rec = false) := by
  intro now sessions
  refine ⟨rfl, rfl, filter_length_split _ sessions, ?_, ?_, ?_, ?_⟩
  · intro rec t h
    simp [sessionExpired, h]
  · intro rec h
    simp [sessionExpired, h]
  · intro rec h
    simp only [sessionExpired, h, secondsPerDay]
    rw [decide_eq_true_eq]
    omega
  · intro rec h
    simp only [sessionExpired, h, secondsPerDay]
    rw [decide_eq_false_iff_not]
    omega

/-- Witness for C9: cleanup at time 0 over an empty store, plus the
31-day/29-day instances at concrete records. -/
theorem C9_cleanup_witness :
    (BasicSessionManager.cleanup_old_sessions 0 [] 30).1 = []
    ∧ sessionExpired 0 30 ⟨"", "", some (0 - 31 * secondsPerDay), 0⟩ = true
    ∧ sessionExpired 0 30 ⟨"", "", some (0 - 29 * secondsPerDay), 0⟩ = false :=
  ⟨(C9_cleanup 0 []).1,
   (C9_cleanup 0 []).2.2.2.2.2.1 ⟨"", "", some (0 - 31 * secondsPerDay), 0⟩ rfl,
   (C9_cleanup 0 []).2.2.2.2.2.2 ⟨"", "", some (0 - 29 * secondsPerDay), 0⟩ rfl⟩

end AIHack
